import Mathlib

/-!
Shallow embedding of the message-identity and delivery-state core
(`src/message.rs` of deltachat-core-rust) and proofs about it.

The SQL store is modelled as association lists (one per table); each SQL
statement is modelled as a pure function on the store.  Statements are
atomic; a statement that the persistence layer fails to execute leaves the
store unchanged, and each write therefore takes an explicit `ok : Bool`
telling whether the persistence collaborator executed it.
-/

set_option autoImplicit false

namespace DeltaMsg

/-- Message lifecycle states, `MessageState` in `message.rs` (numeric levels
Undefined 0, InFresh 10, InNoticed 13, InSeen 16, OutPreparing 18,
OutDraft 19, OutPending 20, OutFailed 24, OutDelivered 26, OutMdnRcvd 28). -/
inductive MessageState where
  | Undefined
  | InFresh
  | InNoticed
  | InSeen
  | OutPreparing
  | OutDraft
  | OutPending
  | OutFailed
  | OutDelivered
  | OutMdnRcvd
deriving DecidableEq, Repr

/-- Predicate `MessageState::can_fail` from `message.rs`: true only for
OutPreparing, OutPending and OutDelivered. -/
def MessageState.can_fail : MessageState → Bool
  | .OutPreparing | .OutPending | .OutDelivered => true
  | _ => false

/-- Chat types (from `crate::constants`, used via `Chattype::Single` in
`mdn_from_ext`). -/
inductive Chattype where
  | Undefined
  | Single
  | Group
  | VerifiedGroup
deriving DecidableEq, Repr

/-- Chat blocked state (`crate::contact::Blocked`); its `Default` is `Not`. -/
inductive Blocked where
  | Not
  | Manually
  | Deaddrop
deriving DecidableEq, Repr

/-- Modelled from the spec: the reserved-sentinel bound for message ids.
`crate::constants` is not in the sources; the spec says values
`1..=LAST_SPECIAL` are reserved sentinels and the queries use `> 9` for the
real range, so the bound is 9. -/
def DC_MSG_ID_LAST_SPECIAL : Nat := 9

/-- Modelled from the spec: the special marker1 message id sentinel. -/
def DC_MSG_ID_MARKER1 : Nat := 1

/-- Modelled from the spec: the special day-marker message id sentinel. -/
def DC_MSG_ID_DAYMARKER : Nat := 9

/-- Modelled from the spec: the reserved trash chat id, the logical
tombstone chat (`crate::constants::DC_CHAT_ID_TRASH`). -/
def DC_CHAT_ID_TRASH : Nat := 3

/-- Modelled from the spec: the contact id of the local user
(`from_id=1` in the `mdn_from_ext` query selects messages sent by self). -/
def DC_CONTACT_ID_SELF : Nat := 1

/-- Source `MsgId::is_special`: the id lies in the reserved sentinel range. -/
def MsgId.is_special (id : Nat) : Bool := id ≤ DC_MSG_ID_LAST_SPECIAL

/-- Source `MsgId::is_unset`: the id is 0 (not yet persisted). -/
def MsgId.is_unset (id : Nat) : Bool := id = 0

/-- Source `MsgId::is_marker1`. -/
def MsgId.is_marker1 (id : Nat) : Bool := id = DC_MSG_ID_MARKER1

/-- Source `MsgId::is_daymarker`. -/
def MsgId.is_daymarker (id : Nat) : Bool := id = DC_MSG_ID_DAYMARKER

/-- Modelled from the spec: `ChatId::is_trash` (the `chat` module is not in
the sources) — the chat id equals the reserved trash chat id. -/
def ChatId.is_trash (id : Nat) : Bool := id = DC_CHAT_ID_TRASH

/-- The columns of a `msgs` row that the modelled operations touch.
Other columns (timestamps, server folder/uid, flags, …) are never read or
written by the operations under proof and are omitted. -/
structure MsgRow where
  chat_id : Nat
  from_id : Nat
  state : MessageState
  rfc724_mid : String
  txt : String
  txt_raw : String
  param : String
deriving DecidableEq, Repr

/-- The columns of a `chats` row that the modelled operations touch.
`member_cnt` models the directory collaborator `chat::get_chat_contact_cnt`
(not in the sources); per the code comment in `mdn_from_ext`
("for rounding, SELF is already included!") it already counts the local
user. -/
structure ChatRow where
  typ : Chattype
  blocked : Blocked
  member_cnt : Nat
deriving DecidableEq, Repr

/-- The persisted store: the `msgs` table, the `chats` table and the
`msgs_mdns` evidence table, rows of the latter being
(msg_id, contact_id, timestamp_sent). -/
structure Db where
  msgs : List (Nat × MsgRow)
  chats : List (Nat × ChatRow)
  mdns : List (Nat × Nat × Int)
deriving DecidableEq, Repr

/-- Query `SELECT … FROM msgs WHERE id=?` — the first row keyed by `id`. -/
def lookupMsg (db : Db) (id : Nat) : Option MsgRow :=
  (db.msgs.find? (fun r => r.1 = id)).map (·.2)

/-- Query `SELECT … FROM chats WHERE id=?` — the first row keyed by `id`. -/
def lookupChat (db : Db) (id : Nat) : Option ChatRow :=
  (db.chats.find? (fun r => r.1 = id)).map (·.2)

/-- Statement `UPDATE msgs SET … WHERE id=?`: apply `g` to every row keyed by `id`. -/
def updateRows (l : List (Nat × MsgRow)) (id : Nat) (g : MsgRow → MsgRow) :
    List (Nat × MsgRow) :=
  l.map (fun r => if r.1 = id then (r.1, g r.2) else r)

/-- The evidence rows recorded for a message:
`SELECT … FROM msgs_mdns WHERE msg_id=?`. -/
def mdnsFor (db : Db) (msg_id : Nat) : List (Nat × Nat × Int) :=
  db.mdns.filter (fun r => r.1 = msg_id)

/-- Modelled from the spec: the directory collaborator
`chat::get_chat_contact_cnt` — the chat's member count (including self).
A missing chat row yields 0. -/
def get_chat_contact_cnt (db : Db) (chat_id : Nat) : Nat :=
  match lookupChat db chat_id with
  | some c => c.member_cnt
  | none => 0

/-- Source `MsgId::trash`:
`UPDATE msgs SET chat_id=?, txt='', txt_raw='' WHERE id=?` with the trash
chat id bound.  `ok` is the persistence collaborator's verdict on the
single statement; the returned Bool is `Ok(())` vs `Err`. -/
def MsgId.trash (db : Db) (ok : Bool) (id : Nat) : Db × Bool :=
  if ok then
    ({ db with
        msgs := updateRows db.msgs id
          (fun r => { r with chat_id := DC_CHAT_ID_TRASH, txt := "", txt_raw := "" }) },
      true)
  else (db, false)

/-- Source `MsgId::delete_from_db`: first
`DELETE FROM msgs_mdns WHERE msg_id=?`, then `DELETE FROM msgs WHERE id=?`;
each `?`-propagated failure aborts the rest of the sequence.  `ok1`, `ok2`
are the collaborator's verdicts on the two statements in order. -/
def MsgId.delete_from_db (db : Db) (ok1 ok2 : Bool) (id : Nat) : Db × Bool :=
  if ok1 then
    let db1 : Db := { db with mdns := db.mdns.filter (fun r => ¬ r.1 = id) }
    if ok2 then
      ({ db1 with msgs := db1.msgs.filter (fun r => ¬ r.1 = id) }, true)
    else (db1, false)
  else (db, false)

/-- Source `message::exists` (named `msg_exists` here since `exists` is reserved):
special ids are rejected before any query; otherwise the message exists
iff its row is present and its chat is not the trash chat. -/
def msg_exists (db : Db) (msg_id : Nat) : Bool :=
  if MsgId.is_special msg_id then false
  else
    match lookupMsg db msg_id with
    | some row => ¬ ChatId.is_trash row.chat_id
    | none => false

/-- Source `message::update_msg_state`:
`UPDATE msgs SET state=? WHERE id=?`; returns whether the statement
executed (`is_ok`). -/
def update_msg_state (db : Db) (ok : Bool) (msg_id : Nat) (state : MessageState) :
    Db × Bool :=
  if ok then
    ({ db with msgs := updateRows db.msgs msg_id (fun r => { r with state := state }) },
      true)
  else (db, false)

/-- Source `message::set_msg_failed`: load the message (special ids and missing
rows abort), set state to OutFailed only if `can_fail`, record the error
text in the parameter bag, write state+param in one statement, and emit
`Event::MsgFailed` (returned as `some (chat_id, msg_id)`) only if that
write succeeded. -/
def set_msg_failed (db : Db) (ok : Bool) (msg_id : Nat) (error : Option String) :
    Db × Option (Nat × Nat) :=
  if MsgId.is_special msg_id then (db, none)
  else
    match lookupMsg db msg_id with
    | none => (db, none)
    | some row =>
      let newState := if row.state.can_fail then MessageState.OutFailed else row.state
      let newParam := match error with
        | some e => e
        | none => row.param
      if ok then
        ({ db with
            msgs := updateRows db.msgs msg_id
              (fun r => { r with state := newState, param := newParam }) },
          some (row.chat_id, msg_id))
      else (db, none)

/-- The per-id `query_row_optional` of `message::markseen_msgs`.  The SQL
text in the source is malformed: its SELECT list is `m.state` followed by
`c.blocked` with no comma between them, which SQLite rejects with a syntax
error, so the statement never executes and the query always yields Err for
every store and id.  The caller matches with `if let Ok(Some(..))`, which
treats an Err exactly like a missing row; both are therefore modelled as
`none`. -/
def markseen_query (_db : Db) (_id : Nat) : Option (MessageState × Blocked) :=
  none

/-- One iteration of the `markseen_msgs` loop body; the accumulator carries
the store, the `send_event` flag and the `MarkseenMsgOnImap` jobs enqueued
so far.  The Bool returned by `update_msg_state` is discarded, as in the
source. -/
def markseen_step (updOk : Nat → Bool) (acc : Db × Bool × List Nat) (id : Nat) :
    Db × Bool × List Nat :=
  let (db, send_event, jobs) := acc
  match markseen_query db id with
  | none => (db, send_event, jobs)
  | some (state, blocked) =>
    if blocked = Blocked.Not then
      if state = MessageState.InFresh ∨ state = MessageState.InNoticed then
        ((update_msg_state db (updOk id) id MessageState.InSeen).1, true, jobs ++ [id])
      else (db, send_event, jobs)
    else
      if state = MessageState.InFresh then
        ((update_msg_state db (updOk id) id MessageState.InNoticed).1, true, jobs)
      else (db, send_event, jobs)

/-- Source `message::markseen_msgs`: iterate the ids, then emit one aggregate
`MsgsChanged` event iff `send_event` was set.  Result components: the final
store, whether the event was emitted, the enqueued remote-markseen jobs,
and the function's return value.  `updOk id` is the collaborator's verdict
on the state write for message `id`. -/
def markseen_msgs (db : Db) (updOk : Nat → Bool) (msg_ids : List Nat) :
    Db × Bool × List Nat × Bool :=
  if msg_ids = [] then (db, false, [], false)
  else
    let res := msg_ids.foldl (markseen_step updOk) (db, false, [])
    (res.1, res.2.1, res.2.2, true)

/-- The first row of `ORDER BY m.id`: the entry with the least key
(ties broken towards the earlier row; `msgs` keys are unique in SQL). -/
def minByFst : List (Nat × MsgRow) → Option (Nat × MsgRow)
  | [] => none
  | r :: rs =>
    match minByFst rs with
    | none => some r
    | some m => if r.1 ≤ m.1 then some r else some m

/-- The rows matching `WHERE rfc724_mid=? AND from_id=1` of the
`mdn_from_ext` query. -/
def mdnCandidates (db : Db) (rfc724_mid : String) : List (Nat × MsgRow) :=
  db.msgs.filter
    (fun r => decide (r.2.rfc724_mid = rfc724_mid ∧ r.2.from_id = DC_CONTACT_ID_SELF))

/-- The `query_row` of `mdn_from_ext`: the lowest-id message sent by self
with the given correlation string, joined with its chat.  A missing chat
row makes the `(MsgId, ChatId, Chattype, MessageState)` decode fail
(NULL columns), i.e. resolution yields nothing. -/
def resolveMdn (db : Db) (rfc724_mid : String) :
    Option (Nat × Nat × Chattype × MessageState) :=
  match minByFst (mdnCandidates db rfc724_mid) with
  | none => none
  | some (msg_id, row) =>
    match lookupChat db row.chat_id with
    | none => none
    | some chat => some (msg_id, row.chat_id, chat.typ, row.state)

/-- Query `SELECT contact_id FROM msgs_mdns WHERE msg_id=? AND contact_id=?`
existence check. -/
def mdn_already_in_table (db : Db) (msg_id contact_id : Nat) : Bool :=
  db.mdns.any (fun r => decide (r.1 = msg_id ∧ r.2.1 = contact_id))

/-- The guarded `INSERT INTO msgs_mdns` of `mdn_from_ext`: insert the
evidence row unless one already exists for this (msg_id, contact) pair;
an insert failure (`insOk = false`) is swallowed. -/
def recordEvidence (db : Db) (insOk : Bool) (msg_id contact_id : Nat) (ts : Int) : Db :=
  if ¬ mdn_already_in_table db msg_id contact_id ∧ insOk then
    { db with mdns := db.mdns ++ [(msg_id, contact_id, ts)] }
  else db

/-- Source `message::mdn_from_ext`.  `insOk` is the collaborator's verdict on the
evidence insert (failure swallowed), `updOk` on the OutMdnRcvd state write
(result discarded, as in the source).  Returns the updated store and
`Some (chat_id, msg_id)` iff `read_by_all` was set. -/
def mdn_from_ext (db : Db) (insOk updOk : Bool) (from_id : Nat)
    (rfc724_mid : String) (timestamp_sent : Int) : Db × Option (Nat × Nat) :=
  if from_id ≤ DC_MSG_ID_LAST_SPECIAL ∨ rfc724_mid = "" then (db, none)
  else
    match resolveMdn db rfc724_mid with
    | none => (db, none)
    | some (msg_id, chat_id, chat_type, msg_state) =>
      if msg_state.can_fail then
        let db1 := recordEvidence db insOk msg_id from_id timestamp_sent
        if chat_type = Chattype.Single then
          ((update_msg_state db1 updOk msg_id MessageState.OutMdnRcvd).1,
            some (chat_id, msg_id))
        else
          let ist_cnt := (mdnsFor db1 msg_id).length
          let soll_cnt := (get_chat_contact_cnt db1 chat_id + 1) / 2
          if ist_cnt ≥ soll_cnt then
            ((update_msg_state db1 updOk msg_id MessageState.OutMdnRcvd).1,
              some (chat_id, msg_id))
          else (db1, none)
      else (db, none)

/-- The distinct contacts with recorded evidence for a message. -/
def evidenceContacts (db : Db) (msg_id : Nat) : List Nat :=
  ((mdnsFor db msg_id).map (fun r => r.2.1)).dedup

/-- The number of distinct contacts with recorded evidence for a message
(the spec's `evidence_count`). -/
def distinctEvidenceCnt (db : Db) (msg_id : Nat) : Nat :=
  (evidenceContacts db msg_id).length

/-- The evidence-table invariant the guarded insert maintains and the SQL
uniqueness constraint enforces: no two rows share a (msg_id, contact_id)
pair. -/
def mdnsPairsNodup (db : Db) : Prop :=
  (db.mdns.map (fun r => (r.1, r.2.1))).Nodup

/-- The `msgs`-table invariant enforced by the SQL primary key: row keys are
unique. -/
def msgsKeysNodup (db : Db) : Prop :=
  (db.msgs.map (fun r => r.1)).Nodup

/-- The stored state of a message (the first row keyed by the id). -/
def getState (db : Db) (msg_id : Nat) : Option MessageState :=
  (lookupMsg db msg_id).map (·.state)

/-! ### Concrete stores used as witnesses and counterexamples -/

/-- A message row sent by self (`from_id = 1`), delivered, in chat 11. -/
def exRow : MsgRow :=
  { chat_id := 11, from_id := 1, state := MessageState.OutDelivered,
    rfc724_mid := "mid-1", txt := "hello", txt_raw := "hello", param := "" }

/-- Group chat 11 with 4 members (including self); message 10 delivered;
one evidence row already recorded from contact 20.  This is the spec's
group-quorum test vector. -/
def exGroupDb : Db :=
  { msgs := [(10, exRow)],
    chats := [(11, { typ := Chattype.Group, blocked := Blocked.Not, member_cnt := 4 })],
    mdns := [(10, 20, 5)] }

/-- One-to-one chat 11; message 10 delivered; no evidence yet. -/
def exSingleDb : Db :=
  { msgs := [(10, exRow)],
    chats := [(11, { typ := Chattype.Single, blocked := Blocked.Not, member_cnt := 2 })],
    mdns := [] }

/-- Message 10 already in the terminal OutMdnRcvd state. -/
def exReadDb : Db :=
  { msgs := [(10, { exRow with state := MessageState.OutMdnRcvd })],
    chats := [(11, { typ := Chattype.Single, blocked := Blocked.Not, member_cnt := 2 })],
    mdns := [] }

/-- The row of `exRow` after `trash`: reparented to the trash chat with
cleared text. -/
def exTrashedRow : MsgRow :=
  { exRow with chat_id := DC_CHAT_ID_TRASH, txt := "", txt_raw := "" }

/-- A message already logically deleted (trashed), with one evidence row,
as the deletion pipeline leaves it before physical deletion. -/
def exTrashedDb : Db :=
  { msgs := [(10, exTrashedRow)],
    chats := [(11, { typ := Chattype.Group, blocked := Blocked.Not, member_cnt := 4 })],
    mdns := [(10, 20, 5)] }

/-! ### Shared lemmas -/

theorem find?_updateRows (l : List (Nat × MsgRow)) (id : Nat) (g : MsgRow → MsgRow) :
    (updateRows l id g).find? (fun r => r.1 = id) =
      (l.find? (fun r => r.1 = id)).map (fun r => (r.1, g r.2)) := by
  induction l with
  | nil => rfl
  | cons r rs ih =>
    by_cases h : r.1 = id
    · simp [updateRows, List.find?_cons, h]
    · simpa [updateRows, List.find?_cons, h] using ih

theorem lookupMsg_updateRows (db : Db) (id : Nat) (g : MsgRow → MsgRow)
    (chats' : List (Nat × ChatRow)) (mdns' : List (Nat × Nat × Int)) :
    lookupMsg ⟨updateRows db.msgs id g, chats', mdns'⟩ id = (lookupMsg db id).map g := by
  simp [lookupMsg, find?_updateRows, Option.map_map]
  rfl

theorem getState_update_msg_state (db : Db) (msg_id : Nat) (st : MessageState)
    (h : (lookupMsg db msg_id).isSome = true) :
    getState (update_msg_state db true msg_id st).1 msg_id = some st := by
  obtain ⟨row, hrow⟩ := Option.isSome_iff_exists.mp h
  simp [update_msg_state, getState]
  rw [show ({ db with msgs := updateRows db.msgs msg_id fun r => { r with state := st } } : Db)
      = ⟨updateRows db.msgs msg_id fun r => { r with state := st }, db.chats, db.mdns⟩ from rfl,
    lookupMsg_updateRows]
  simp [hrow]

theorem minByFst_mem {l : List (Nat × MsgRow)} {r : Nat × MsgRow}
    (h : minByFst l = some r) : r ∈ l := by
  induction l generalizing r with
  | nil => simp [minByFst] at h
  | cons x xs ih =>
    simp only [minByFst] at h
    cases hxs : minByFst xs with
    | none => rw [hxs] at h; simp at h; simp [h]
    | some m =>
      rw [hxs] at h
      by_cases hle : x.1 ≤ m.1
      · simp [hle] at h; simp [h]
      · simp [hle] at h
        right
        exact h ▸ ih hxs

theorem find?_eq_of_mem_of_nodupKeys (l : List (Nat × MsgRow))
    (hnd : (l.map (fun r => r.1)).Nodup) {id : Nat} {row : MsgRow}
    (hm : (id, row) ∈ l) : l.find? (fun r => r.1 = id) = some (id, row) := by
  induction l with
  | nil => simp at hm
  | cons x xs ih =>
    simp only [List.map_cons, List.nodup_cons] at hnd
    rcases List.mem_cons.mp hm with heq | htail
    · subst heq
      simp [List.find?_cons]
    · by_cases hx : x.1 = id
      · exfalso
        exact hnd.1 (hx ▸ (List.mem_map.mpr ⟨(id, row), htail, rfl⟩))
      · simp [List.find?_cons, hx]
        exact ih hnd.2 htail

theorem resolveMdn_lookup (db : Db) (mid : String)
    (msg_id chat_id : Nat) (ctype : Chattype) (st : MessageState)
    (hkeys : msgsKeysNodup db)
    (hres : resolveMdn db mid = some (msg_id, chat_id, ctype, st)) :
    ∃ row : MsgRow, lookupMsg db msg_id = some row ∧ row.state = st ∧
      row.chat_id = chat_id := by
  unfold resolveMdn at hres
  cases hmin : minByFst (mdnCandidates db mid) with
  | none => rw [hmin] at hres; simp at hres
  | some p =>
    rw [hmin] at hres
    obtain ⟨m, row⟩ := p
    dsimp only at hres
    cases hchat : lookupChat db row.chat_id with
    | none => rw [hchat] at hres; simp at hres
    | some chat =>
      rw [hchat] at hres
      simp at hres
      obtain ⟨h1, h2, _h3, h4⟩ := hres
      have hmem : (m, row) ∈ mdnCandidates db mid := minByFst_mem hmin
      have hmem' : (m, row) ∈ db.msgs := (List.mem_filter.mp hmem).1
      refine ⟨row, ?_, h4, h2⟩
      unfold lookupMsg
      rw [h1] at hmem'
      rw [find?_eq_of_mem_of_nodupKeys db.msgs hkeys hmem']
      rfl

theorem mdn_already_in_table_iff (db : Db) (m c : Nat) :
    mdn_already_in_table db m c = true ↔
      (m, c) ∈ db.mdns.map (fun r => (r.1, r.2.1)) := by
  simp only [mdn_already_in_table, List.any_eq_true, decide_eq_true_eq, List.mem_map]
  constructor
  · rintro ⟨r, hr, h1, h2⟩
    exact ⟨r, hr, by simp [h1, h2]⟩
  · rintro ⟨r, hr, h⟩
    refine ⟨r, hr, ?_, ?_⟩
    · exact congrArg Prod.fst h
    · exact congrArg Prod.snd h

theorem pairsNodup_recordEvidence (db : Db) (insOk : Bool) (m c : Nat) (ts : Int)
    (h : mdnsPairsNodup db) :
    mdnsPairsNodup (recordEvidence db insOk m c ts) := by
  unfold recordEvidence
  split
  · next hins =>
    unfold mdnsPairsNodup at h ⊢
    simp only [List.map_append, List.map_cons, List.map_nil]
    rw [List.nodup_append]
    refine ⟨h, List.nodup_singleton _, ?_⟩
    intro p hp hq
    simp at hq
    subst hq
    exact hins.1 ((mdn_already_in_table_iff db m c).mpr hp)
  · exact h

theorem map_contacts_nodup {m : Nat} (l : List (Nat × Nat × Int))
    (hall : ∀ r ∈ l, r.1 = m)
    (hnd : (l.map (fun r => (r.1, r.2.1))).Nodup) :
    (l.map (fun r => r.2.1)).Nodup := by
  induction l with
  | nil => simp
  | cons r rs ih =>
    simp only [List.map_cons, List.nodup_cons] at hnd ⊢
    refine ⟨?_, ih (fun x hx => hall x (List.mem_cons_of_mem _ hx)) hnd.2⟩
    intro hc
    obtain ⟨r', hr', heq⟩ := List.mem_map.mp hc
    apply hnd.1
    refine List.mem_map.mpr ⟨r', hr', ?_⟩
    have h1 : r'.1 = m := hall r' (List.mem_cons_of_mem _ hr')
    have h2 : r.1 = m := hall r (List.mem_cons_self _ _)
    rw [h1, h2, heq]

theorem distinctEvidenceCnt_eq_length (db : Db) (m : Nat)
    (h : mdnsPairsNodup db) :
    distinctEvidenceCnt db m = (mdnsFor db m).length := by
  unfold distinctEvidenceCnt evidenceContacts
  have hsub : (mdnsFor db m).Sublist db.mdns := List.filter_sublist _
  have hnd : ((mdnsFor db m).map (fun r => (r.1, r.2.1))).Nodup :=
    (h.sublist (hsub.map _))
  have hall : ∀ r ∈ mdnsFor db m, r.1 = m := by
    intro r hr
    have := (List.mem_filter.mp hr).2
    simpa using this
  have : ((mdnsFor db m).map (fun r => r.2.1)).Nodup :=
    map_contacts_nodup _ hall hnd
  rw [List.dedup_eq_self.mpr this, List.length_map]

theorem recordEvidence_msgs (db : Db) (insOk : Bool) (m c : Nat) (ts : Int) :
    (recordEvidence db insOk m c ts).msgs = db.msgs := by
  unfold recordEvidence; split <;> rfl

theorem recordEvidence_chats (db : Db) (insOk : Bool) (m c : Nat) (ts : Int) :
    (recordEvidence db insOk m c ts).chats = db.chats := by
  unfold recordEvidence; split <;> rfl

theorem update_msg_state_mdns (db : Db) (ok : Bool) (m : Nat) (st : MessageState) :
    ((update_msg_state db ok m st).1).mdns = db.mdns := by
  unfold update_msg_state; split <;> rfl

theorem lookupMsg_congr (db db' : Db) (h : db'.msgs = db.msgs) (id : Nat) :
    lookupMsg db' id = lookupMsg db id := by
  unfold lookupMsg; rw [h]

theorem getState_updateRowsDb (db : Db) (id : Nat) (g : MsgRow → MsgRow) :
    getState { db with msgs := updateRows db.msgs id g } id =
      (lookupMsg db id).map (fun r => (g r).state) := by
  unfold getState
  rw [show ({ db with msgs := updateRows db.msgs id g } : Db)
      = ⟨updateRows db.msgs id g, db.chats, db.mdns⟩ from rfl, lookupMsg_updateRows]
  cases lookupMsg db id <;> rfl

theorem updateRows_updateRows (l : List (Nat × MsgRow)) (id : Nat)
    (g : MsgRow → MsgRow) (hg : ∀ r, g (g r) = g r) :
    updateRows (updateRows l id g) id g = updateRows l id g := by
  induction l with
  | nil => rfl
  | cons r rs ih =>
    by_cases h : r.1 = id
    · have h1 : updateRows (r :: rs) id g = (r.1, g r.2) :: updateRows rs id g := by
        simp [updateRows, h]
      have h2 : updateRows ((r.1, g r.2) :: updateRows rs id g) id g
          = (r.1, g (g r.2)) :: updateRows (updateRows rs id g) id g := by
        simp [updateRows, h]
      rw [h1, h2, hg, ih]
    · have h1 : updateRows (r :: rs) id g = r :: updateRows rs id g := by
        simp [updateRows, h]
      have h2 : updateRows (r :: updateRows rs id g) id g
          = r :: updateRows (updateRows rs id g) id g := by
        simp [updateRows, h]
      rw [h1, h2, ih]

theorem find?_filter_ne (l : List (Nat × MsgRow)) (id : Nat) :
    (l.filter (fun r => ¬ r.1 = id)).find? (fun r => r.1 = id) = none := by
  induction l with
  | nil => rfl
  | cons r rs ih =>
    by_cases h : r.1 = id
    · simp [h, ih]
    · simp [List.filter_cons, h, List.find?_cons, ih]

theorem mdnsFor_erase (l : List (Nat × Nat × Int)) (id : Nat) :
    (l.filter (fun r => ¬ r.1 = id)).filter (fun r => r.1 = id) = [] := by
  induction l with
  | nil => rfl
  | cons r rs ih =>
    by_cases h : r.1 = id
    · simp [List.filter_cons, h, ih]
    · simp [List.filter_cons, h, ih]

theorem mdn_from_ext_not_can_fail (db : Db) (insOk updOk : Bool) (from_id : Nat)
    (mid : String) (ts : Int) (msg_id chat_id : Nat) (ctype : Chattype)
    (st : MessageState)
    (hres : resolveMdn db mid = some (msg_id, chat_id, ctype, st))
    (hcf : st.can_fail = false) :
    mdn_from_ext db insOk updOk from_id mid ts = (db, none) := by
  unfold mdn_from_ext
  by_cases hrej : from_id ≤ DC_MSG_ID_LAST_SPECIAL ∨ mid = ""
  · rw [if_pos hrej]
  · rw [if_neg hrej, hres]
    dsimp only
    rw [hcf]
    simp

theorem markseen_step_id (updOk : Nat → Bool) (acc : Db × Bool × List Nat)
    (id : Nat) : markseen_step updOk acc id = acc := rfl

theorem markseen_fold_id (updOk : Nat → Bool) (ids : List Nat) :
    ∀ acc : Db × Bool × List Nat, ids.foldl (markseen_step updOk) acc = acc := by
  induction ids with
  | nil => intro acc; rfl
  | cons i rest ih =>
    intro acc
    rw [List.foldl_cons, markseen_step_id]
    exact ih acc

/-! ### Claim theorems -/

/-- Claim C5: when the correlation string is empty or the reporting contact
id lies in the special/reserved range, `mdn_from_ext` returns nothing and
leaves the store untouched — no evidence recording, no state change —
regardless of the other arguments. -/
theorem C5_mdn_rejects_special_or_empty (db : Db) (insOk updOk : Bool)
    (from_id : Nat) (rfc724_mid : String) (ts : Int)
    (h : from_id ≤ DC_MSG_ID_LAST_SPECIAL ∨ rfc724_mid = "") :
    mdn_from_ext db insOk updOk from_id rfc724_mid ts = (db, none) := by
  unfold mdn_from_ext
  rw [if_pos h]

/-- Witness for C5: a reserved-range contact id (5) on a store that would
otherwise resolve the receipt, and an empty correlation string from a real
contact, are both no-ops. -/
theorem C5_witness :
    mdn_from_ext exSingleDb true true 5 "mid-1" 7 = (exSingleDb, none)
    ∧ mdn_from_ext exSingleDb true true 20 "" 7 = (exSingleDb, none) :=
  ⟨C5_mdn_rejects_special_or_empty exSingleDb true true 5 "mid-1" 7
      (Or.inl (by decide)),
    C5_mdn_rejects_special_or_empty exSingleDb true true 20 "" 7
      (Or.inr rfl)⟩

/-- Claim C6: `can_fail` holds exactly for OutPreparing, OutPending and
OutDelivered, and `set_msg_failed` on a message whose state is any other
state leaves the stored state unchanged (a no-op on the state column). -/
theorem C6_can_fail_exact_and_failed_noop :
    (∀ st : MessageState, st.can_fail = true ↔
      (st = MessageState.OutPreparing ∨ st = MessageState.OutPending ∨
        st = MessageState.OutDelivered))
    ∧ (∀ (db : Db) (ok : Bool) (msg_id : Nat) (err : Option String)
        (st : MessageState),
        getState db msg_id = some st → st.can_fail = false →
        getState (set_msg_failed db ok msg_id err).1 msg_id = some st) := by
  constructor
  · intro st
    cases st <;> simp [MessageState.can_fail]
  · intro db ok msg_id err st hst hcf
    unfold set_msg_failed
    by_cases hsp : MsgId.is_special msg_id = true
    · rw [if_pos hsp]
      exact hst
    · rw [if_neg hsp]
      unfold getState at hst
      cases hlk : lookupMsg db msg_id with
      | none => rw [hlk] at hst; simp at hst
      | some row =>
        rw [hlk] at hst
        simp only [Option.map_some', Option.some_inj] at hst
        dsimp only
        cases ok with
        | false =>
          simp only [Bool.false_eq_true, if_false]
          unfold getState
          rw [hlk]
          exact congrArg some hst
        | true =>
          simp only [if_true]
          rw [getState_updateRowsDb, hlk]
          simp only [Option.map_some', Option.some_inj]
          rw [hst, hcf]
          simp

/-- Witness for C6: both parts at concrete inputs — `can_fail` on
OutDelivered, and `set_msg_failed` leaving an OutMdnRcvd message's state
untouched. -/
theorem C6_witness :
    MessageState.OutDelivered.can_fail = true
    ∧ getState (set_msg_failed exReadDb true 10 (some "oops")).1 10 =
        some MessageState.OutMdnRcvd :=
  ⟨(C6_can_fail_exact_and_failed_noop.1 MessageState.OutDelivered).mpr
      (Or.inr (Or.inr rfl)),
    C6_can_fail_exact_and_failed_noop.2 exReadDb true 10 (some "oops")
      MessageState.OutMdnRcvd (by decide) (by decide)⟩

/-- Claim C9: `trash` is idempotent — a second call on an already-trashed
message succeeds and changes nothing further, and after a `trash` the row is
reparented to the trash chat with its text and raw text cleared. -/
theorem C9_trash_idempotent :
    (∀ (db : Db) (id : Nat),
      MsgId.trash (MsgId.trash db true id).1 true id = ((MsgId.trash db true id).1, true))
    ∧ (∀ (db : Db) (id : Nat) (row : MsgRow),
        lookupMsg (MsgId.trash db true id).1 id = some row →
        row.chat_id = DC_CHAT_ID_TRASH ∧ row.txt = "" ∧ row.txt_raw = "") := by
  constructor
  · intro db id
    unfold MsgId.trash
    simp only [if_true]
    rw [updateRows_updateRows]
    intro r
    rfl
  · intro db id row h
    unfold MsgId.trash at h
    simp only [if_true] at h
    rw [show ({ db with msgs := updateRows db.msgs id fun r =>
          { r with chat_id := DC_CHAT_ID_TRASH, txt := "", txt_raw := "" } } : Db)
        = ⟨updateRows db.msgs id fun r =>
          { r with chat_id := DC_CHAT_ID_TRASH, txt := "", txt_raw := "" },
          db.chats, db.mdns⟩ from rfl, lookupMsg_updateRows] at h
    cases hlk : lookupMsg db id with
    | none => rw [hlk] at h; simp at h
    | some r0 =>
      rw [hlk] at h
      simp only [Option.map_some', Option.some_inj] at h
      rw [← h]
      exact ⟨rfl, rfl, rfl⟩

/-- Witness for C9: the double-trash fixpoint and the trashed row's fields
on a concrete store. -/
theorem C9_witness :
    MsgId.trash (MsgId.trash exGroupDb true 10).1 true 10 =
      ((MsgId.trash exGroupDb true 10).1, true)
    ∧ (exTrashedRow.chat_id = DC_CHAT_ID_TRASH ∧ exTrashedRow.txt = ""
        ∧ exTrashedRow.txt_raw = "") :=
  ⟨C9_trash_idempotent.1 exGroupDb 10,
    C9_trash_idempotent.2 exGroupDb 10 exTrashedRow (by decide)⟩

/-- Claim C10: `exists` is false for every reserved-range id on every store
(no storage consulted), and false for a persisted row whose chat is the
trash chat — a tombstoned message does not count as existing. -/
theorem C10_exists_special_and_trash :
    (∀ (db : Db) (id : Nat), MsgId.is_special id = true →
      msg_exists db id = false)
    ∧ (∀ (db : Db) (id : Nat) (row : MsgRow), lookupMsg db id = some row →
        row.chat_id = DC_CHAT_ID_TRASH → msg_exists db id = false) := by
  constructor
  · intro db id h
    unfold msg_exists
    rw [if_pos h]
  · intro db id row hlk htrash
    unfold msg_exists
    by_cases hsp : MsgId.is_special id = true
    · rw [if_pos hsp]
    · rw [if_neg hsp, hlk]
      simp [ChatId.is_trash, htrash]

/-- Witness for C10: the day-marker sentinel id on a populated store, and a
concrete trashed row. -/
theorem C10_witness :
    msg_exists exGroupDb DC_MSG_ID_DAYMARKER = false
    ∧ msg_exists exTrashedDb 10 = false :=
  ⟨C10_exists_special_and_trash.1 exGroupDb DC_MSG_ID_DAYMARKER (by decide),
    C10_exists_special_and_trash.2 exTrashedDb 10 exTrashedRow (by decide) (by decide)⟩

/-- Counterexample to C7 as stated: interrupting `delete_from_db` between
its two statements (first succeeded, second failed) leaves the message row
present and the evidence set empty — the opposite of the claimed residue of
"an orphaned evidence set with no parent message". -/
theorem C7_counterexample :
    lookupMsg (MsgId.delete_from_db exGroupDb true false 10).1 10 = some exRow
    ∧ mdnsFor (MsgId.delete_from_db exGroupDb true false 10).1 10 = [] := by
  constructor <;> rfl

/-- Claim C7 as amended: `delete_from_db` issues the two delete statements
in fixed order — evidence rows first, then the message row — so that the
interrupted residue is a message row whose evidence has been removed; an
evidence set without its message row never arises (the first statement's
failure aborts before anything changed). -/
theorem C7_delete_order (db : Db) (id : Nat) :
    MsgId.delete_from_db db false false id = (db, false)
    ∧ MsgId.delete_from_db db false true id = (db, false)
    ∧ MsgId.delete_from_db db true false id =
        ({ db with mdns := db.mdns.filter (fun r => ¬ r.1 = id) }, false)
    ∧ MsgId.delete_from_db db true true id =
        ({ db with msgs := db.msgs.filter (fun r => ¬ r.1 = id),
                   mdns := db.mdns.filter (fun r => ¬ r.1 = id) }, true)
    ∧ (∀ ok1 ok2 : Bool, (MsgId.delete_from_db db ok1 ok2 id).1 = db
        ∨ mdnsFor (MsgId.delete_from_db db ok1 ok2 id).1 id = []) := by
  refine ⟨rfl, rfl, rfl, rfl, ?_⟩
  intro ok1 ok2
  cases ok1 with
  | false => exact Or.inl rfl
  | true =>
    right
    cases ok2 with
    | false => exact mdnsFor_erase db.mdns id
    | true => exact mdnsFor_erase db.mdns id

/-- Counterexample to C8 as stated: after a partial `delete_from_db` (only
the evidence deletion succeeded) on a message still in a normal chat, the
existence check reports the message as existing. -/
theorem C8_counterexample :
    msg_exists (MsgId.delete_from_db exGroupDb true false 10).1 10 = true := by
  rfl

/-- Claim C8 as amended: after `delete_from_db` the existence check returns
false even in the partial-failure state where only the evidence deletion
succeeded — provided the message had already been reparented to the trash
chat, as the deletion pipeline guarantees by trashing before physical
deletion; a fully successful deletion yields false unconditionally. -/
theorem C8_exists_after_delete (db : Db) (id : Nat) (row : MsgRow)
    (hlk : lookupMsg db id = some row)
    (htrash : row.chat_id = DC_CHAT_ID_TRASH) :
    msg_exists (MsgId.delete_from_db db true false id).1 id = false
    ∧ msg_exists (MsgId.delete_from_db db true true id).1 id = false := by
  constructor
  · have hmsgs : ((MsgId.delete_from_db db true false id).1).msgs = db.msgs := rfl
    unfold msg_exists
    by_cases hsp : MsgId.is_special id = true
    · rw [if_pos hsp]
    · rw [if_neg hsp, lookupMsg_congr db _ hmsgs, hlk]
      simp [ChatId.is_trash, htrash]
  · unfold msg_exists
    by_cases hsp : MsgId.is_special id = true
    · rw [if_pos hsp]
    · rw [if_neg hsp]
      have hnone : lookupMsg (MsgId.delete_from_db db true true id).1 id = none := by
        unfold lookupMsg
        have : ((MsgId.delete_from_db db true true id).1).msgs =
            db.msgs.filter (fun r => ¬ r.1 = id) := rfl
        rw [this, find?_filter_ne]
        rfl
      rw [hnone]

/-- Witness for C8: the partial-failure and full-deletion checks on a
concrete already-trashed message. -/
theorem C8_witness :
    msg_exists (MsgId.delete_from_db exTrashedDb true false 10).1 10 = false
    ∧ msg_exists (MsgId.delete_from_db exTrashedDb true true 10).1 10 = false :=
  C8_exists_after_delete exTrashedDb 10 exTrashedRow (by decide) (by decide)

/-- Counterexample to C2 as stated: a receipt resolving to a message whose
state fails `can_fail` (OutMdnRcvd) from a contact with no recorded
evidence leaves the evidence table empty — no evidence row is inserted,
contradicting "processing still proceeds to evidence recording". -/
theorem C2_counterexample :
    (resolveMdn exReadDb "mid-1").map (fun r => (r.2.2.2).can_fail) = some false
    ∧ mdn_already_in_table exReadDb 10 20 = false
    ∧ ((mdn_from_ext exReadDb true true 20 "mid-1" 7).1).mdns = [] := by
  refine ⟨rfl, rfl, rfl⟩

/-- Claim C2 as amended: when the resolved message's state does not satisfy
`can_fail`, the call records no evidence and performs no state change at
all — the whole store is returned untouched along with no signal. -/
theorem C2_no_processing_when_not_can_fail (db : Db) (insOk updOk : Bool)
    (from_id : Nat) (mid : String) (ts : Int) (msg_id chat_id : Nat)
    (ctype : Chattype) (st : MessageState)
    (hres : resolveMdn db mid = some (msg_id, chat_id, ctype, st))
    (hcf : st.can_fail = false) :
    mdn_from_ext db insOk updOk from_id mid ts = (db, none) :=
  mdn_from_ext_not_can_fail db insOk updOk from_id mid ts msg_id chat_id ctype st
    hres hcf

/-- Witness for C2 (amended): the concrete OutMdnRcvd receipt is a complete
no-op. -/
theorem C2_witness :
    mdn_from_ext exReadDb true true 20 "mid-1" 7 = (exReadDb, none) :=
  C2_no_processing_when_not_can_fail exReadDb true true 20 "mid-1" 7 10 11
    Chattype.Single MessageState.OutMdnRcvd (by decide) (by decide)

/-- Claim C4: evidence recording is idempotent — a receipt whose
(msg_id, contact) pair is already recorded leaves the evidence table
unchanged, and a receipt for a message already in OutMdnRcvd never
re-triggers the transition-fired return value (the call is a no-op). -/
theorem C4_evidence_idempotent (db : Db) (insOk updOk : Bool) (from_id : Nat)
    (mid : String) (ts : Int) (msg_id chat_id : Nat) (ctype : Chattype)
    (st : MessageState)
    (hres : resolveMdn db mid = some (msg_id, chat_id, ctype, st)) :
    (mdn_already_in_table db msg_id from_id = true →
      ((mdn_from_ext db insOk updOk from_id mid ts).1).mdns = db.mdns)
    ∧ (st = MessageState.OutMdnRcvd →
      mdn_from_ext db insOk updOk from_id mid ts = (db, none)) := by
  constructor
  · intro hpair
    unfold mdn_from_ext
    by_cases hrej : from_id ≤ DC_MSG_ID_LAST_SPECIAL ∨ mid = ""
    · rw [if_pos hrej]
    · rw [if_neg hrej, hres]
      dsimp only
      by_cases hcf : st.can_fail = true
      · rw [if_pos hcf]
        have hrec : recordEvidence db insOk msg_id from_id ts = db := by
          unfold recordEvidence
          rw [if_neg]
          simp [hpair]
        rw [hrec]
        split_ifs <;> simp [update_msg_state_mdns]
      · rw [if_neg hcf]
  · intro hst
    subst hst
    exact mdn_from_ext_not_can_fail db insOk updOk from_id mid ts msg_id chat_id
      ctype _ hres rfl

/-- Witness for C4: re-delivering contact 20's receipt on the group store
(where it is already recorded) leaves the evidence table unchanged. -/
theorem C4_witness :
    ((mdn_from_ext exGroupDb true true 20 "mid-1" 9).1).mdns = exGroupDb.mdns :=
  (C4_evidence_idempotent exGroupDb true true 20 "mid-1" 9 10 11 Chattype.Group
      MessageState.OutDelivered (by decide)).1 (by decide)

/-- Counterexample to C3 as stated: with a failing OutMdnRcvd state write,
`mdn_from_ext` still returns the fully-read (chat_id, msg_id) signal — the
very signal the claim says is suppressed — even though the message is still
OutDelivered in the store. -/
theorem C3_counterexample :
    (mdn_from_ext exSingleDb true false 20 "mid-1" 5).2 = some (11, 10)
    ∧ getState (mdn_from_ext exSingleDb true false 20 "mid-1" 5).1 10 =
        some MessageState.OutDelivered := by
  refine ⟨rfl, rfl⟩

/-- Claim C3 as amended: the write-failure/notification consistency holds
for `set_msg_failed` (no MsgFailed event when its write fails); it fails
for `mdn_from_ext`, whose returned signal is the same whether the final
OutMdnRcvd write succeeds or fails; and for `markseen_msgs` the question
never arises, because its malformed per-id query makes the marking path
dead: for every store, oracle and id list the store is unchanged, the
MsgsChanged event is not emitted and no remote-markseen job is enqueued. -/
theorem C3_suppression_only_in_set_msg_failed :
    (∀ (db : Db) (msg_id : Nat) (err : Option String),
      (set_msg_failed db false msg_id err).2 = none)
    ∧ (∀ (db : Db) (insOk : Bool) (from_id : Nat) (mid : String) (ts : Int),
      (mdn_from_ext db insOk false from_id mid ts).2 =
        (mdn_from_ext db insOk true from_id mid ts).2)
    ∧ (∀ (db : Db) (updOk : Nat → Bool) (ids : List Nat),
      (markseen_msgs db updOk ids).1 = db
      ∧ (markseen_msgs db updOk ids).2.1 = false
      ∧ (markseen_msgs db updOk ids).2.2.1 = []) := by
  refine ⟨?_, ?_, ?_⟩
  · intro db msg_id err
    unfold set_msg_failed
    split_ifs with h hfalse
    · rfl
    · exact hfalse.elim
    · cases lookupMsg db msg_id <;> rfl
  · intro db insOk from_id mid ts
    unfold mdn_from_ext
    cases resolveMdn db mid with
    | none => split_ifs <;> rfl
    | some q =>
      obtain ⟨msg_id, chat_id, ctype, st⟩ := q
      dsimp only
      split_ifs <;> rfl
  · intro db updOk ids
    unfold markseen_msgs
    by_cases h : ids = []
    · rw [if_pos h]
      exact ⟨rfl, rfl, rfl⟩
    · rw [if_neg h]
      dsimp only
      rw [markseen_fold_id]
      exact ⟨rfl, rfl, rfl⟩

/-- Claim C1: for a receipt that resolves to a message in a `can_fail`
state (with successful writes and the table invariants): in a one-to-one
chat a single piece of recorded evidence transitions the message to
OutMdnRcvd immediately and the (chat_id, msg_id) pair is returned; in any
other chat kind the transition fires — and the pair is returned — exactly
when the number of distinct contacts with recorded evidence (after this
receipt is recorded) reaches `(member_count + 1) / 2` in floor division,
the member count including the local user; below the threshold nothing is
returned and the state is unchanged. -/
theorem C1_quorum_transition (db : Db) (from_id : Nat) (mid : String) (ts : Int)
    (msg_id chat_id : Nat) (ctype : Chattype) (st : MessageState)
    (hfrom : DC_MSG_ID_LAST_SPECIAL < from_id) (hmid : ¬ mid = "")
    (hres : resolveMdn db mid = some (msg_id, chat_id, ctype, st))
    (hcf : st.can_fail = true)
    (hkeys : msgsKeysNodup db) (hpairs : mdnsPairsNodup db) :
    (ctype = Chattype.Single →
      (mdn_from_ext db true true from_id mid ts).2 = some (chat_id, msg_id)
      ∧ getState (mdn_from_ext db true true from_id mid ts).1 msg_id =
          some MessageState.OutMdnRcvd)
    ∧ (¬ ctype = Chattype.Single →
      (distinctEvidenceCnt (recordEvidence db true msg_id from_id ts) msg_id ≥
          (get_chat_contact_cnt db chat_id + 1) / 2 →
        (mdn_from_ext db true true from_id mid ts).2 = some (chat_id, msg_id)
        ∧ getState (mdn_from_ext db true true from_id mid ts).1 msg_id =
            some MessageState.OutMdnRcvd)
      ∧ (distinctEvidenceCnt (recordEvidence db true msg_id from_id ts) msg_id <
          (get_chat_contact_cnt db chat_id + 1) / 2 →
        (mdn_from_ext db true true from_id mid ts).2 = none
        ∧ getState (mdn_from_ext db true true from_id mid ts).1 msg_id = some st)) := by
  have hrej : ¬ (from_id ≤ DC_MSG_ID_LAST_SPECIAL ∨ mid = "") := by
    rintro (h | h)
    · exact absurd h (not_le.mpr hfrom)
    · exact hmid h
  obtain ⟨row, hlkrow, hrowstate, hrowchat⟩ :=
    resolveMdn_lookup db mid msg_id chat_id ctype st hkeys hres
  set db1 := recordEvidence db true msg_id from_id ts with hdb1
  have hmsgs1 : db1.msgs = db.msgs := recordEvidence_msgs db true msg_id from_id ts
  have hlk1 : lookupMsg db1 msg_id = some row := by
    rw [lookupMsg_congr db db1 hmsgs1 msg_id]
    exact hlkrow
  have hsome : (lookupMsg db1 msg_id).isSome = true := by rw [hlk1]; rfl
  have hcnt : distinctEvidenceCnt db1 msg_id = (mdnsFor db1 msg_id).length :=
    distinctEvidenceCnt_eq_length db1 msg_id
      (pairsNodup_recordEvidence db true msg_id from_id ts hpairs)
  have hchats : get_chat_contact_cnt db1 chat_id = get_chat_contact_cnt db chat_id := by
    unfold get_chat_contact_cnt lookupChat
    rw [recordEvidence_chats]
  have hunfold : mdn_from_ext db true true from_id mid ts =
      (if ctype = Chattype.Single then
        ((update_msg_state db1 true msg_id MessageState.OutMdnRcvd).1,
          some (chat_id, msg_id))
      else if (mdnsFor db1 msg_id).length ≥
          (get_chat_contact_cnt db1 chat_id + 1) / 2 then
        ((update_msg_state db1 true msg_id MessageState.OutMdnRcvd).1,
          some (chat_id, msg_id))
      else (db1, none)) := by
    unfold mdn_from_ext
    rw [if_neg hrej, hres]
    dsimp only
    rw [if_pos hcf]
  constructor
  · intro hsingle
    rw [hunfold, if_pos hsingle]
    exact ⟨rfl, getState_update_msg_state db1 msg_id _ hsome⟩
  · intro hgroup
    constructor
    · intro hge
      rw [hcnt, ← hchats] at hge
      rw [hunfold, if_neg hgroup, if_pos hge]
      exact ⟨rfl, getState_update_msg_state db1 msg_id _ hsome⟩
    · intro hlt
      rw [hcnt, ← hchats] at hlt
      rw [hunfold, if_neg hgroup, if_neg (not_le.mpr hlt)]
      refine ⟨rfl, ?_⟩
      unfold getState
      rw [hlk1]
      exact congrArg some hrowstate

/-- Witness for C1: the spec's group-quorum vector — 4 members including
self, one receipt already recorded (contact 20): required is 2, so the
second distinct receipt (contact 21) fires the transition and returns the
pair, matching the resolved chat and message ids. -/
theorem C1_witness :
    (mdn_from_ext exGroupDb true true 21 "mid-1" 9).2 = some (11, 10)
    ∧ getState (mdn_from_ext exGroupDb true true 21 "mid-1" 9).1 10 =
        some MessageState.OutMdnRcvd :=
  ((C1_quorum_transition exGroupDb 21 "mid-1" 9 10 11 Chattype.Group
      MessageState.OutDelivered (by decide) (by decide) (by decide) (by decide)
      (by unfold msgsKeysNodup; decide) (by unfold mdnsPairsNodup; decide)).2
    (by decide)).1 (by decide)

end DeltaMsg
